import Mathlib

/-!
Shallow embedding of the Cardboard Unity XR plugin Vulkan backend:
`sdk/unity/xr_unity_plugin/vulkan/vulkan_renderer.cc` and
`sdk/unity/xr_unity_plugin/vulkan/vulkan_widgets_renderer.cc`.

Vulkan object handles are modelled as natural numbers, with `0` standing for
`VK_NULL_HANDLE`.  Driver calls are logged into an explicit `World` value
(a fresh-handle counter, a log of device-level driver operations, and the list
of commands recorded into the active command buffer), so that resource
creation, destruction and command recording can be audited by theorems.
Machine floats in the vertex computation are modelled over `ℚ`.
-/

namespace Cardboard

/-- A Vulkan object handle; `0` models `VK_NULL_HANDLE`. -/
abbrev Handle := Nat

/-- Source `Renderer::ScreenParams` (declared in `renderer.h`): viewport origin and
size plus target width/height, all C `int`s. -/
structure ScreenParams where
  viewport_x : Int
  viewport_y : Int
  viewport_width : Int
  viewport_height : Int
  width : Int
  height : Int
deriving DecidableEq

/-- Source `Renderer::WidgetParams` (declared in `renderer.h`): screen position and
size of the widget plus its native texture handle. -/
structure WidgetParams where
  x : Int
  y : Int
  width : Int
  height : Int
  texture : Handle
deriving DecidableEq

/-- Source `VulkanWidgetsRenderer::Vertex`: four 32-bit floats
{position.x, position.y, u, v}, modelled over `ℚ`. -/
structure Vertex where
  pos_x : ℚ
  pos_y : ℚ
  tex_u : ℚ
  tex_v : ℚ
deriving DecidableEq

/-- Modelled from the spec: the linear-interpolation math helper `Lerp` used by
`VulkanWidgetsRenderer::UpdateVertexBuffer` lives outside the two source files
of this repository snapshot (the spec lists "math helpers (linear
interpolation)" among external collaborators).  The spec's Y-mapping formula
`Lerp(-1,+1,t)` is standard linear interpolation from the first argument to the
second. -/
def Lerp (a b t : ℚ) : ℚ := a + (b - a) * t

/-- The pure geometry part of `VulkanWidgetsRenderer::UpdateVertexBuffer`
(vulkan_widgets_renderer.cc lines 468-486): converts the widget rectangle to
normalized device coordinates, flipping the y axis from the host's y-down
convention (`opengl_to_vulkan_y = viewport_height - y - height`), and produces
the four quad vertices in the order written to the vertex buffer. -/
def widgetVertices (widget_params : WidgetParams) (screen_params : ScreenParams) :
    List Vertex :=
  let x := Lerp (-1) 1 ((widget_params.x : ℚ) / (screen_params.viewport_width : ℚ))
  let opengl_to_vulkan_y : Int :=
    screen_params.viewport_height - widget_params.y - widget_params.height
  let y := Lerp (-1) 1 ((opengl_to_vulkan_y : ℚ) / (screen_params.viewport_height : ℚ))
  let width : ℚ := (widget_params.width : ℚ) * 2 / (screen_params.viewport_width : ℚ)
  let height : ℚ := (widget_params.height : ℚ) * 2 / (screen_params.viewport_height : ℚ)
  [⟨x, y, 0, 1⟩, ⟨x, y + height, 0, 0⟩,
   ⟨x + width, y + height, 1, 0⟩, ⟨x + width, y, 1, 1⟩]

/-- A command recorded into the caller-supplied command buffer by
`VulkanWidgetsRenderer::RenderWidget`. -/
inductive Cmd where
  | bindPipeline (pipeline : Handle)
  | setViewport (x y w h : Int)
  | setScissor (x y w h : Int)
  | bindVertexBuffers (buffer : Handle)
  | bindIndexBuffer (buffer : Handle)
  | bindDescriptorSets (dset : Handle)
  | drawIndexed (indexCount instanceCount : Nat)
deriving DecidableEq

/-- A device-level Vulkan driver call made by the renderer, as logged in the
world.  Creation calls carry the fresh handle(s) they produce. -/
inductive DriverOp where
  | createDescriptorSetLayout (h : Handle)
  | createPipelineLayout (h : Handle)
  | createSampler (h : Handle)
  | createBuffer (buffer memory : Handle)
  | destroyBuffer (buffer : Handle)
  | freeMemory (memory : Handle)
  | writeVertexData (buffer : Handle) (data : List Vertex)
  | writeIndexData (buffer : Handle) (data : List Nat)
  | createDescriptorPool (maxSets : Nat) (h : Handle)
  | allocateDescriptorSets (count : Nat) (sets : List Handle)
  | createImageView (image view : Handle)
  | destroyImageView (view : Handle)
  | updateDescriptorSet (dstSet view sampler : Handle)
  | createShaderModule (h : Handle)
  | destroyShaderModule (h : Handle)
  | createPipeline (renderPass pipeline : Handle)
  | destroyPipeline (pipeline : Handle)
deriving DecidableEq

/-- The explicit driver world: a fresh-handle counter, the log of device-level
driver calls, and the commands recorded into the active command buffer. -/
structure World where
  next : Nat
  ops : List DriverOp
  cmds : List Cmd
deriving DecidableEq

/-- Produce a fresh non-null handle. -/
def World.fresh (w : World) : Handle × World :=
  (w.next, { w with next := w.next + 1 })

/-- Log a device-level driver call. -/
def World.log (w : World) (o : DriverOp) : World :=
  { w with ops := w.ops ++ [o] }

/-- Record a command into the active command buffer. -/
def World.record (w : World) (c : Cmd) : World :=
  { w with cmds := w.cmds ++ [c] }

/-- Produce `n` fresh handles (the handles `vkAllocateDescriptorSets` writes
into the destination array). -/
def freshHandles : Nat → World → List Handle × World
  | 0, w => ([], w)
  | Nat.succ n, w =>
      let hw := w.fresh
      let rw := freshHandles n hw.2
      (hw.1 :: rw.1, rw.2)

/-- Source `std::vector::resize` on a vector of Vulkan handles: truncates, or pads
with value-initialized entries (`VK_NULL_HANDLE`). -/
def resizeHandles (l : List Handle) (n : Nat) : List Handle :=
  l.take n ++ List.replicate (n - l.length) 0

namespace VulkanWidgetsRenderer

/-- The member state of `VulkanWidgetsRenderer`.  `current_render_pass` is
left uninitialized by the constructor's initializer list in the source; the
model takes the null handle as its starting value. -/
structure State where
  widget_image_count : Nat
  descriptor_set_layout : Handle
  pipeline_layout : Handle
  graphics_pipeline : Handle
  texture_sampler : Handle
  current_render_pass : Handle
  vertex_buffers : List Handle
  vertex_buffers_memory : List Handle
  index_buffers : Handle
  index_buffers_memory : Handle
  descriptor_pool : Handle
  descriptor_sets : List Handle
  image_views : List Handle
  indices_count : Nat
deriving DecidableEq

/-- Source `VulkanWidgetsRenderer::CreateBuffer`: create a buffer and allocate and
bind its backing memory; returns the two fresh handles. -/
def CreateBuffer (w : World) : Handle × Handle × World :=
  let bw := w.fresh
  let mw := bw.2.fresh
  (bw.1, mw.1, mw.2.log (.createBuffer bw.1 mw.1))

/-- Source `VulkanWidgetsRenderer::CreateIndexBuffer`: create the shared index
buffer, copy the index data into it, and remember the index count. -/
def CreateIndexBuffer (indices : List Nat) (s : State) (w : World) : State × World :=
  let r := CreateBuffer w
  let w2 := r.2.2.log (.writeIndexData r.1 indices)
  ({ s with index_buffers := r.1, index_buffers_memory := r.2.1,
            indices_count := indices.length }, w2)

/-- Source `VulkanWidgetsRenderer::CreateSharedVulkanObjects`: descriptor-set layout,
pipeline layout, sampler, and the shared 6-entry index buffer {0,1,2,2,3,0}. -/
def CreateSharedVulkanObjects (s : State) (w : World) : State × World :=
  let l := w.fresh
  let w1 := l.2.log (.createDescriptorSetLayout l.1)
  let pl := w1.fresh
  let w2 := pl.2.log (.createPipelineLayout pl.1)
  let sam := w2.fresh
  let w3 := sam.2.log (.createSampler sam.1)
  CreateIndexBuffer [0, 1, 2, 2, 3, 0]
    { s with descriptor_set_layout := l.1, pipeline_layout := pl.1,
             texture_sampler := sam.1 } w3

/-- The `VulkanWidgetsRenderer` constructor: member initializer list sets
`widget_image_count_` to 1 with all handle collections empty; if loading the
Vulkan library fails it returns early, otherwise it builds the shared
objects. -/
def construct (loadVulkanOk : Bool) (w : World) : State × World :=
  let s : State :=
    { widget_image_count := 1
      descriptor_set_layout := 0
      pipeline_layout := 0
      graphics_pipeline := 0
      texture_sampler := 0
      current_render_pass := 0
      vertex_buffers := []
      vertex_buffers_memory := []
      index_buffers := 0
      index_buffers_memory := 0
      descriptor_pool := 0
      descriptor_sets := []
      image_views := []
      indices_count := 0 }
  if loadVulkanOk then CreateSharedVulkanObjects s w else (s, w)

/-- Source `VulkanWidgetsRenderer::CreatePerWidgetVulkanObjects`: creates a
descriptor pool sized to the widget count (overwriting, not destroying, the
previous pool handle), allocates one descriptor set per widget, and resizes
the image-view and vertex-buffer collections to the widget count. -/
def CreatePerWidgetVulkanObjects (s : State) (w : World) : State × World :=
  let n := s.widget_image_count
  let pw := w.fresh
  let w1 := pw.2.log (.createDescriptorPool n pw.1)
  let dsw := freshHandles n w1
  let w2 := dsw.2.log (.allocateDescriptorSets n dsw.1)
  ({ s with descriptor_pool := pw.1
            descriptor_sets := dsw.1
            image_views := resizeHandles s.image_views n
            vertex_buffers := resizeHandles s.vertex_buffers n
            vertex_buffers_memory := resizeHandles s.vertex_buffers_memory n }, w2)

/-- Source `VulkanWidgetsRenderer::CreateVertexBuffer`: guarded by the index-bounds
check at the top of the source function (log and return on failure); creates
the buffer with backing memory and copies the vertex data into it. -/
def CreateVertexBuffer (vertices : List Vertex) (index : Nat) (s : State)
    (w : World) : State × World :=
  if s.vertex_buffers.length ≤ index then (s, w)
  else
    let r := CreateBuffer w
    let w2 := r.2.2.log (.writeVertexData r.1 vertices)
    ({ s with vertex_buffers := s.vertex_buffers.set index r.1
              vertex_buffers_memory := s.vertex_buffers_memory.set index r.2.1 }, w2)

/-- Source `VulkanWidgetsRenderer::UpdateVertexBuffer`: destroys the slot's previous
vertex buffer and memory if present, recomputes the quad vertices, and
rebuilds the slot's vertex buffer. -/
def UpdateVertexBuffer (widget_params : WidgetParams)
    (screen_params : ScreenParams) (index : Nat) (s : State) (w : World) :
    State × World :=
  let w1 :=
    if s.vertex_buffers.getD index 0 ≠ 0 then
      ((w.log (.destroyBuffer (s.vertex_buffers.getD index 0))).log
        (.freeMemory (s.vertex_buffers_memory.getD index 0)))
    else w
  CreateVertexBuffer (widgetVertices widget_params screen_params) index s w1

/-- Loop body order of `VulkanWidgetsRenderer::UpdateVertexBuffers`:
`UpdateVertexBuffer(widgets_params[i], screen_params, i)` for each `i` below
the widget count. -/
def updateVertexBuffersAux (screen_params : ScreenParams) :
    List WidgetParams → Nat → State → World → State × World
  | [], _, s, w => (s, w)
  | p :: rest, i, s, w =>
      let r := UpdateVertexBuffer p screen_params i s w
      updateVertexBuffersAux screen_params rest (i + 1) r.1 r.2

/-- Source `VulkanWidgetsRenderer::UpdateVertexBuffers` (the widget count equals the
length of the widget list whenever this is reached from `RenderWidgets`). -/
def UpdateVertexBuffers (widgets_params : List WidgetParams)
    (screen_params : ScreenParams) (s : State) (w : World) : State × World :=
  updateVertexBuffersAux screen_params widgets_params 0 s w

/-- Source `VulkanWidgetsRenderer::CleanPipeline`: destroys the graphics pipeline if
it is non-null and nulls the member. -/
def CleanPipeline (s : State) (w : World) : State × World :=
  if s.graphics_pipeline ≠ 0 then
    ({ s with graphics_pipeline := 0 }, w.log (.destroyPipeline s.graphics_pipeline))
  else (s, w)

/-- Source `VulkanWidgetsRenderer::LoadShader`: creates a shader module. -/
def LoadShader (w : World) : Handle × World :=
  let r := w.fresh
  (r.1, r.2.log (.createShaderModule r.1))

/-- Source `VulkanWidgetsRenderer::CreateGraphicsPipeline`: destroys the existing
pipeline, loads the two shader modules, creates the pipeline against
`current_render_pass_`, and destroys the shader modules. -/
def CreateGraphicsPipeline (s : State) (w : World) : State × World :=
  let r0 := CleanPipeline s w
  let vs := LoadShader r0.2
  let fs := LoadShader vs.2
  let pw := fs.2.fresh
  let w1 := pw.2.log (.createPipeline r0.1.current_render_pass pw.1)
  let w2 := (w1.log (.destroyShaderModule vs.1)).log (.destroyShaderModule fs.1)
  ({ r0.1 with graphics_pipeline := pw.1 }, w2)

/-- Source `VulkanWidgetsRenderer::CleanTextureImageView`: destroys the slot's image
view if it is non-null and nulls the slot. -/
def CleanTextureImageView (index : Nat) (s : State) (w : World) : State × World :=
  if s.image_views.getD index 0 ≠ 0 then
    ({ s with image_views := s.image_views.set index 0 },
      w.log (.destroyImageView (s.image_views.getD index 0)))
  else (s, w)

/-- Source `VulkanWidgetsRenderer::RenderWidget`: rebuilds the slot's texture image
view, writes the view and shared sampler into the slot's descriptor set, and
records viewport/scissor state, bindings and the indexed draw into the
command buffer. -/
def RenderWidget (widget_params : WidgetParams) (image_index : Nat)
    (screen_params : ScreenParams) (s : State) (w : World) : State × World :=
  let r0 := CleanTextureImageView image_index s w
  let vw := r0.2.fresh
  let w1 := vw.2.log (.createImageView widget_params.texture vw.1)
  let s1 := { r0.1 with image_views := r0.1.image_views.set image_index vw.1 }
  let w2 := w1.log
    (.updateDescriptorSet (s1.descriptor_sets.getD image_index 0) vw.1
      s1.texture_sampler)
  let w3 :=
    ((((((w2.record (.bindPipeline s1.graphics_pipeline)).record
      (.setViewport screen_params.viewport_x screen_params.viewport_y
        screen_params.viewport_width screen_params.viewport_height)).record
      (.setScissor screen_params.viewport_x screen_params.viewport_y
        screen_params.viewport_width screen_params.viewport_height)).record
      (.bindVertexBuffers (s1.vertex_buffers.getD image_index 0))).record
      (.bindIndexBuffer s1.index_buffers)).record
      (.bindDescriptorSets (s1.descriptor_sets.getD image_index 0))).record
      (.drawIndexed s1.indices_count 1)
  (s1, w3)

/-- Loop order of the draw loop at the end of
`VulkanWidgetsRenderer::RenderWidgets`. -/
def renderWidgetLoop (screen_params : ScreenParams) :
    List WidgetParams → Nat → State → World → State × World
  | [], _, s, w => (s, w)
  | p :: rest, i, s, w =>
      let r := RenderWidget p i screen_params s w
      renderWidgetLoop screen_params rest (i + 1) r.1 r.2

/-- Source `VulkanWidgetsRenderer::RenderWidgets` (vulkan_widgets_renderer.cc lines
91-108): set the widget count from the incoming list, rebuild per-widget
objects and vertex buffers, rebuild the pipeline when the render pass handle
differs from the cached one, then record one draw per widget. -/
def RenderWidgets (screen_params : ScreenParams)
    (widgets_params : List WidgetParams) (render_pass : Handle) (s : State)
    (w : World) : State × World :=
  let s0 := { s with widget_image_count := widgets_params.length }
  let r1 := CreatePerWidgetVulkanObjects s0 w
  let r2 := UpdateVertexBuffers widgets_params screen_params r1.1 r1.2
  let r3 :=
    if render_pass ≠ r2.1.current_render_pass then
      CreateGraphicsPipeline { r2.1 with current_render_pass := render_pass } r2.2
    else r2
  renderWidgetLoop screen_params widgets_params 0 r3.1 r3.2

/-- The destructor (vulkan_widgets_renderer.cc lines 63-89) indexes
`image_views_[i]` (through `CleanTextureImageView`) and `vertex_buffers_[i]` /
`vertex_buffers_memory_[i]` for every `i < widget_image_count_`.  This
predicate states that all those `operator[]` accesses are within the bounds of
the respective vectors. -/
def destructorAccessesInBounds (s : State) : Prop :=
  ∀ i < s.widget_image_count,
    i < s.image_views.length ∧ i < s.vertex_buffers.length ∧
      i < s.vertex_buffers_memory.length

instance (s : State) : Decidable (destructorAccessesInBounds s) :=
  Nat.decidableBallLT _ _

end VulkanWidgetsRenderer

namespace VulkanRenderer

/-- The framebuffer-related member state of the anonymous-namespace
`VulkanRenderer` class in vulkan_renderer.cc.  A framebuffer entry is `none`
while the slot still holds `VK_NULL_HANDLE` (never built) and `some (w, h)`
once a framebuffer of extent `w × h` has been built for that image.
`frames_to_update_count_` is not set by the constructor's initializer list in
the source; the theorems therefore treat its starting value as arbitrary. -/
structure State where
  current_rendering_width : Int
  current_rendering_height : Int
  swapchain_image_count : Nat
  frames_to_update_count : Nat
  frame_buffers : List (Option (Int × Int))
deriving DecidableEq

/-- The dimension-change test at the top of
`VulkanRenderer::RunRenderingPreProcessing` (vulkan_renderer.cc lines
317-318). -/
def dimensionChange (screen_params : ScreenParams) (s : State) : Prop :=
  screen_params.viewport_width ≠ s.current_rendering_width ∨
    screen_params.viewport_height ≠ s.current_rendering_height

instance (screen_params : ScreenParams) (s : State) :
    Decidable (dimensionChange screen_params s) := by
  unfold dimensionChange; infer_instance

/-- Second half of `VulkanRenderer::RunRenderingPreProcessing`
(vulkan_renderer.cc lines 324-346): when the pending-update counter is
positive, the framebuffer of the currently acquired image is (re)built at
`screen_params.width × height` and the counter is decremented. -/
def rebuildStep (screen_params : ScreenParams) (image_index : Nat)
    (s1 : State) : State :=
  if 0 < s1.frames_to_update_count then
    { s1 with
        frame_buffers := s1.frame_buffers.set image_index
          (some (screen_params.width, screen_params.height))
        frames_to_update_count := s1.frames_to_update_count - 1 }
  else s1

/-- Source `VulkanRenderer::RunRenderingPreProcessing` (vulkan_renderer.cc lines
308-373), restricted to the state it mutates: on a viewport-dimension change
the pending-update counter is set to the swapchain image count and the cached
dimensions are updated; then the throttled framebuffer rebuild of
`rebuildStep` runs.  (Acquiring the command buffer and beginning the render
pass do not touch this state and are elided.) -/
def RunRenderingPreProcessing (screen_params : ScreenParams)
    (image_index : Nat) (s : State) : State :=
  rebuildStep screen_params image_index
    (if dimensionChange screen_params s then
      { s with frames_to_update_count := s.swapchain_image_count
               current_rendering_width := screen_params.viewport_width
               current_rendering_height := screen_params.viewport_height }
    else s)

/-- A sequence of per-frame pre-processing calls, each given its screen
parameters and the image index acquired for that frame. -/
def runPreProcessingList (calls : List (ScreenParams × Nat)) (s : State) :
    State :=
  calls.foldl (fun t c => RunRenderingPreProcessing c.1 c.2 t) s

end VulkanRenderer

/-- The process-wide interception state of vulkan_renderer.cc:
`cached_swapchain` and `image_index`. -/
structure InterceptionState where
  cached_swapchain : Handle
  image_index : Nat
deriving DecidableEq

/-- Source `Hook_vkCreateSwapchainKHR` (vulkan_renderer.cc lines 42-48).  The first
argument is the outcome of the forwarded real driver call: its `VkResult` and
the swapchain it wrote through `pSwapchain`.  The hook records the swapchain
handle unconditionally.  The hook itself is declared `void` in the source, so
no `VkResult` is returned to the caller; the value the hook hands back is
modelled as `Option Int`, and is always `none`. -/
def Hook_vkCreateSwapchainKHR (driver : Int × Handle) (g : InterceptionState) :
    InterceptionState × Option Int :=
  ({ g with cached_swapchain := driver.2 }, none)

/-- Source `Hook_vkAcquireNextImageKHR` (vulkan_renderer.cc lines 55-61).  The first
argument is the outcome of the forwarded real driver call: its `VkResult` and
the image index it wrote through `pImageIndex`.  The hook records the image
index unconditionally and, being declared `void`, returns no `VkResult`. -/
def Hook_vkAcquireNextImageKHR (driver : Int × Nat) (g : InterceptionState) :
    InterceptionState × Option Int :=
  ({ g with image_index := driver.2 }, none)

/-- The address returned by the wrapped function-address resolver: one of the
two interception wrappers, or the address the original resolver produced. -/
inductive ResolvedAddr where
  | hookCreateSwapchain
  | hookAcquireNextImage
  | original (addr : Handle)
deriving DecidableEq

/-- Source `MyGetInstanceProcAddr` (vulkan_renderer.cc lines 66-81): returns the
interception wrapper for exactly the two hooked entry-point names and
otherwise forwards the address resolved by the original resolver. -/
def MyGetInstanceProcAddr (orig : String → Handle) (pName : String) :
    ResolvedAddr :=
  if pName = "vkCreateSwapchainKHR" then .hookCreateSwapchain
  else if pName = "vkAcquireNextImageKHR" then .hookAcquireNextImage
  else .original (orig pName)

/-! Audit helpers over the driver-call log and the recorded command list. -/

/-- Buffer handles produced by `vkCreateBuffer` calls in the log. -/
def createdBufferHandles (ops : List DriverOp) : List Handle :=
  ops.filterMap fun o =>
    match o with
    | .createBuffer b _ => some b
    | _ => none

/-- Buffer handles passed to `vkDestroyBuffer` calls in the log. -/
def destroyedBufferHandles (ops : List DriverOp) : List Handle :=
  ops.filterMap fun o =>
    match o with
    | .destroyBuffer b => some b
    | _ => none

/-- Descriptor-pool handles produced by `vkCreateDescriptorPool` calls. -/
def createdPoolHandles (ops : List DriverOp) : List Handle :=
  ops.filterMap fun o =>
    match o with
    | .createDescriptorPool _ h => some h
    | _ => none

/-- Test for a `vkCreateGraphicsPipelines` call. -/
def isCreatePipelineOp : DriverOp → Bool
  | .createPipeline _ _ => true
  | _ => false

/-- Test for a `vkDestroyPipeline` call. -/
def isDestroyPipelineOp : DriverOp → Bool
  | .destroyPipeline _ => true
  | _ => false

/-- Number of `vkCreateGraphicsPipelines` calls in the log. -/
def pipelineCreates (ops : List DriverOp) : Nat :=
  ops.countP isCreatePipelineOp

/-- Number of `vkDestroyPipeline` calls in the log. -/
def pipelineDestroys (ops : List DriverOp) : Nat :=
  ops.countP isDestroyPipelineOp

/-- Number of `vkCreateDescriptorPool` calls requesting capacity `maxSets` in
the log. -/
def poolCreatesWithMax (maxSets : Nat) (ops : List DriverOp) : Nat :=
  ops.countP fun o =>
    match o with
    | .createDescriptorPool m _ => m == maxSets
    | _ => false

/-- Number of `vkUpdateDescriptorSets` calls (descriptor-set writes) in the
log. -/
def descriptorWrites (ops : List DriverOp) : Nat :=
  ops.countP fun o =>
    match o with
    | .updateDescriptorSet _ _ _ => true
    | _ => false

/-- Test for a recorded `vkCmdDrawIndexed` command. -/
def isDrawCmd : Cmd → Bool
  | .drawIndexed _ _ => true
  | _ => false

/-- Zero pipeline-rebuild work was performed between two renderer
state/world pairs: the pipeline handle and the cached render pass are
unchanged and the driver log gained no pipeline-create or pipeline-destroy
call. -/
def VulkanWidgetsRenderer.PipelinePreserved
    (a b : VulkanWidgetsRenderer.State × World) : Prop :=
  b.1.graphics_pipeline = a.1.graphics_pipeline ∧
  b.1.current_render_pass = a.1.current_render_pass ∧
  pipelineCreates b.2.ops = pipelineCreates a.2.ops ∧
  pipelineDestroys b.2.ops = pipelineDestroys a.2.ops

/-! Concrete evaluation scenarios used by the theorems below.  Handle numbers
appearing in the statements are the deterministic values of the model's
fresh-handle counter, which starts at 1. -/

/-- A world before any driver call. -/
def emptyWorld : World := ⟨1, [], []⟩

/-- State and world right after a fully successful construction (shared
objects built, no `RenderWidgets` call yet). -/
def constructedOk : VulkanWidgetsRenderer.State × World :=
  VulkanWidgetsRenderer.construct true emptyWorld

/-- A 100×100 screen used by the transition scenarios. -/
def screenA : ScreenParams := ⟨0, 0, 100, 100, 100, 100⟩

/-- First widget of the transition scenario. -/
def widgetA : WidgetParams := ⟨0, 0, 10, 10, 1⟩

/-- Second widget of the transition scenario. -/
def widgetB : WidgetParams := ⟨5, 5, 10, 10, 2⟩

/-- First frame of the N→M transition scenario: two widgets. -/
def leakRun1 : VulkanWidgetsRenderer.State × World :=
  VulkanWidgetsRenderer.RenderWidgets screenA [widgetA, widgetB] 100
    constructedOk.1 constructedOk.2

/-- Second frame of the N→M transition scenario: one widget (2→1 shrink). -/
def leakRun2 : VulkanWidgetsRenderer.State × World :=
  VulkanWidgetsRenderer.RenderWidgets screenA [widgetA] 100
    leakRun1.1 leakRun1.2

/-- The 1280×720 viewport of the end-to-end scenario. -/
def demoScreen : ScreenParams := ⟨0, 0, 1280, 720, 1280, 720⟩

/-- The (x=0, y=0, w=100, h=50) widget of the end-to-end scenario. -/
def demoWidget : WidgetParams := ⟨0, 0, 100, 50, 5⟩

/-- One `RenderWidgets` frame with exactly the end-to-end scenario's single
widget. -/
def demoRun : VulkanWidgetsRenderer.State × World :=
  VulkanWidgetsRenderer.RenderWidgets demoScreen [demoWidget] 100
    constructedOk.1 constructedOk.2

/-- Frame 1 of the alternating-render-pass scenario (render pass 1). -/
def alternate1 : VulkanWidgetsRenderer.State × World :=
  VulkanWidgetsRenderer.RenderWidgets screenA [] 1 constructedOk.1 constructedOk.2

/-- Frame 2 of the alternating-render-pass scenario (render pass 2). -/
def alternate2 : VulkanWidgetsRenderer.State × World :=
  VulkanWidgetsRenderer.RenderWidgets screenA [] 2 alternate1.1 alternate1.2

/-- Frame 3 of the alternating-render-pass scenario (render pass 1 again). -/
def alternate3 : VulkanWidgetsRenderer.State × World :=
  VulkanWidgetsRenderer.RenderWidgets screenA [] 1 alternate2.1 alternate2.2

/-- Frame-target state with a two-image swapchain, no framebuffer built yet,
cached dimensions 0×0 (the constructor's values) and a zero pending-update
counter. -/
def twoImageStart : VulkanRenderer.State := ⟨0, 0, 2, 0, [none, none]⟩

/-- A 10×10 screen for the frame-target scenarios. -/
def smallScreen : ScreenParams := ⟨0, 0, 10, 10, 10, 10⟩

/-- C1: the claim asserts that teardown after a construction that did not
fully complete (here: the Vulkan library failed to load, and `RenderWidgets`
never ran) is a crash-free no-op, and in particular that the destructor never
indexes the image-view or vertex-buffer collections out of bounds.  The code
refutes this: the constructor sets `widget_image_count_` to 1 while both
collections are empty, and the destructor loops `i` from 0 below
`widget_image_count_`, dereferencing `image_views_[0]`, `vertex_buffers_[0]`
and `vertex_buffers_memory_[0]` — all out of bounds (undefined behavior in
`std::vector::operator[]`). -/
theorem c1_destructor_indexes_empty_collections :
    (VulkanWidgetsRenderer.construct false emptyWorld).1.widget_image_count = 1 ∧
    (VulkanWidgetsRenderer.construct false emptyWorld).1.image_views.length = 0 ∧
    (VulkanWidgetsRenderer.construct false emptyWorld).1.vertex_buffers.length = 0 ∧
    ¬ VulkanWidgetsRenderer.destructorAccessesInBounds
        (VulkanWidgetsRenderer.construct false emptyWorld).1 := by
  refine ⟨by decide, by decide, by decide, by decide⟩

/-- C2: across the widget-count transition 2→1 the slot collection does end
with exactly M = 1 slots, but the claim's "every resource belonging to slots
beyond M is released" fails: the slot-1 vertex buffer created by the first
frame (fresh handle 11) is never passed to `vkDestroyBuffer` — the 2→1
`resize` simply drops the handle — and is no longer referenced by any state
collection (the remaining slot holds the rebuilt buffer 20, the shared index
buffer is 4), so it is leaked.  Likewise a second descriptor pool (18) is
created while the first pool's handle (6) is only overwritten; the source has
no `vkDestroyDescriptorPool` call outside the destructor, and the destructor
destroys only the handle currently stored, so pool 6 is leaked as well. -/
theorem c2_shrinking_transition_leaks :
    leakRun2.1.vertex_buffers.length = 1 ∧
    (11 : Handle) ∈ createdBufferHandles leakRun2.2.ops ∧
    (11 : Handle) ∉ destroyedBufferHandles leakRun2.2.ops ∧
    leakRun2.1.vertex_buffers = [20] ∧
    leakRun2.1.index_buffers = 4 ∧
    createdPoolHandles leakRun2.2.ops = [6, 18] ∧
    leakRun2.1.descriptor_pool = 18 := by
  refine ⟨by decide, by decide, by decide, by decide, by decide, by decide,
    by decide⟩

/-- C3: the claim asserts the caller of an intercepted entry point receives
the driver's original result code.  Both hooks are declared `void` in the
source, so while the forwarded driver call happens and the bookkeeping
(recording the swapchain handle or image index) is unconditional, the
driver's `VkResult` is discarded and nothing is returned to the caller.  The
evaluation below uses a failing driver call (result −4, i.e.
`VK_ERROR_DEVICE_LOST`): the recorded handle/index is stored, yet the value
handed back to the caller is `none` — in particular not the original result
code. -/
theorem c3_hooks_return_no_result :
    (Hook_vkCreateSwapchainKHR (-4, 7) ⟨0, 0⟩).1.cached_swapchain = 7 ∧
    (Hook_vkCreateSwapchainKHR (-4, 7) ⟨0, 0⟩).2 = none ∧
    (Hook_vkAcquireNextImageKHR (-4, 3) ⟨0, 0⟩).1.image_index = 3 ∧
    (Hook_vkAcquireNextImageKHR (-4, 3) ⟨0, 0⟩).2 = none ∧
    ∀ r : Int, (Hook_vkCreateSwapchainKHR (-4, 7) ⟨0, 0⟩).2 ≠ some r := by
  exact ⟨rfl, rfl, rfl, rfl, fun r => by simp [Hook_vkCreateSwapchainKHR]⟩

/-- C4 counterexample: a two-image swapchain, a dimension change (10×10 from
the constructed 0×0), and then two further per-frame calls — at least
`image_count` of them — with no further dimension change.  Every call acquires
image index 0, which the claim's "arbitrary acquired image indices" allows.
The pending counter is exhausted by the repeated index, so image 1's
framebuffer is never rebuilt: it is still null rather than 10×10. -/
theorem c4_counterexample_repeated_index :
    VulkanRenderer.dimensionChange smallScreen twoImageStart ∧
    twoImageStart.swapchain_image_count = 2 ∧
    (VulkanRenderer.runPreProcessingList
        [(smallScreen, 0), (smallScreen, 0), (smallScreen, 0)]
        twoImageStart).frame_buffers.getD 1 none = none := by
  refine ⟨by decide, by decide, by decide⟩

/-- C5 counterexample: three `RenderWidgets` frames whose render-pass handles
are 1, 2, 1 trigger three pipeline creations, although only two distinct
render-pass handles were ever passed — the pipeline is rebuilt once per
*change* of render pass, not once per distinct handle. -/
theorem c5_counterexample_alternating_render_pass :
    pipelineCreates alternate3.2.ops = 3 ∧
    ([1, 2, 1] : List Handle).dedup.length = 2 ∧
    pipelineCreates alternate3.2.ops ≠ ([1, 2, 1] : List Handle).dedup.length := by
  refine ⟨by decide, by decide, by decide⟩

/-- C6: rendering exactly one widget (x=0, y=0, w=100, h=50) against a
1280×720 viewport.  The vertex generation yields 4 vertices whose x
coordinates span [−1, −1 + 2·100/1280] and whose y coordinates span
[1 − 2·50/720, 1]; exactly that vertex list is written into the widget's
vertex buffer during the frame; the frame performs exactly one
descriptor-set write and records exactly one indexed draw of the 6 shared
indices. -/
theorem c6_single_widget_scenario :
    (widgetVertices demoWidget demoScreen).length = 4 ∧
    (widgetVertices demoWidget demoScreen).map Vertex.pos_x =
      [-1, -1, -1 + 2 * 100 / 1280, -1 + 2 * 100 / 1280] ∧
    (widgetVertices demoWidget demoScreen).map Vertex.pos_y =
      [1 - 2 * 50 / 720, 1, 1, 1 - 2 * 50 / 720] ∧
    (demoRun.2.ops.filterMap fun o =>
      match o with
      | .writeVertexData _ data => some data
      | _ => none) = [widgetVertices demoWidget demoScreen] ∧
    descriptorWrites demoRun.2.ops = 1 ∧
    demoRun.2.cmds.filter isDrawCmd = [.drawIndexed 6 1] := by
  refine ⟨rfl, ?_, ?_, rfl, by decide, by decide⟩
  · simp [widgetVertices, Lerp, demoWidget, demoScreen]
    norm_num
  · simp [widgetVertices, Lerp, demoWidget, demoScreen]
    norm_num

/-- C7: for a widget at host-space y = 0 with height H against a viewport of
height V > 0, the vertex generation assigns the quad vertices derived from
the widget's origin (vertices 0 and 3) the NDC y coordinate
`Lerp(-1, +1, (V−H)/V)`, which equals `1 − 2·H/V`: the host's y-down top edge
position is mirrored through the viewport height
(`opengl_to_vulkan_y = V − 0 − H`) before the linear map onto [−1, +1]. -/
theorem c7_top_edge_y_mapping (wp : WidgetParams) (sp : ScreenParams)
    (hy : wp.y = 0) (hV : 0 < sp.viewport_height) :
    ((widgetVertices wp sp).getD 0 ⟨0, 0, 0, 0⟩).pos_y =
      Lerp (-1) 1 (((sp.viewport_height - wp.height : Int) : ℚ) /
        (sp.viewport_height : ℚ)) ∧
    ((widgetVertices wp sp).getD 3 ⟨0, 0, 0, 0⟩).pos_y =
      Lerp (-1) 1 (((sp.viewport_height - wp.height : Int) : ℚ) /
        (sp.viewport_height : ℚ)) ∧
    Lerp (-1) 1 (((sp.viewport_height - wp.height : Int) : ℚ) /
        (sp.viewport_height : ℚ)) =
      1 - 2 * (wp.height : ℚ) / (sp.viewport_height : ℚ) := by
  have hVq : (sp.viewport_height : ℚ) ≠ 0 := by
    exact_mod_cast Int.ne_of_gt hV
  refine ⟨by simp [widgetVertices, hy], by simp [widgetVertices, hy], ?_⟩
  unfold Lerp
  field_simp
  ring

/-- C7 witness: the mapping theorem applied to the concrete widget
(x=0, y=0, w=100, h=50) and the 1280×720 viewport. -/
theorem c7_witness :
    (⟨0, 0, 100, 50, 5⟩ : WidgetParams).y = 0 ∧
    (0 : Int) < (⟨0, 0, 1280, 720, 1280, 720⟩ : ScreenParams).viewport_height ∧
    (((widgetVertices ⟨0, 0, 100, 50, 5⟩ ⟨0, 0, 1280, 720, 1280, 720⟩).getD 0
        ⟨0, 0, 0, 0⟩).pos_y =
      Lerp (-1) 1 ((((720 : Int) - 50 : Int) : ℚ) / ((720 : Int) : ℚ)) ∧
    ((widgetVertices ⟨0, 0, 100, 50, 5⟩ ⟨0, 0, 1280, 720, 1280, 720⟩).getD 3
        ⟨0, 0, 0, 0⟩).pos_y =
      Lerp (-1) 1 ((((720 : Int) - 50 : Int) : ℚ) / ((720 : Int) : ℚ)) ∧
    Lerp (-1) 1 ((((720 : Int) - 50 : Int) : ℚ) / ((720 : Int) : ℚ)) =
      1 - 2 * ((50 : Int) : ℚ) / ((720 : Int) : ℚ)) :=
  ⟨rfl, by decide,
    c7_top_edge_y_mapping ⟨0, 0, 100, 50, 5⟩ ⟨0, 0, 1280, 720, 1280, 720⟩
      rfl (by decide)⟩

/-- C9: the wrapped resolver returns exactly the address the original
resolver produced for every name other than the two intercepted entry points,
and returns the interception wrappers for exactly those two names. -/
theorem c9_resolver_pass_through (orig : String → Handle) (pName : String)
    (h1 : pName ≠ "vkCreateSwapchainKHR")
    (h2 : pName ≠ "vkAcquireNextImageKHR") :
    MyGetInstanceProcAddr orig pName = .original (orig pName) ∧
    MyGetInstanceProcAddr orig "vkCreateSwapchainKHR" = .hookCreateSwapchain ∧
    MyGetInstanceProcAddr orig "vkAcquireNextImageKHR" = .hookAcquireNextImage := by
  refine ⟨?_, ?_, ?_⟩ <;> simp [MyGetInstanceProcAddr, h1, h2]

/-- C9 witness: pass-through evaluated at the non-intercepted name
"vkDestroyDevice" with a concrete original resolver. -/
theorem c9_witness :
    ("vkDestroyDevice" : String) ≠ "vkCreateSwapchainKHR" ∧
    ("vkDestroyDevice" : String) ≠ "vkAcquireNextImageKHR" ∧
    MyGetInstanceProcAddr (fun s => s.length) "vkDestroyDevice" =
      .original (String.length "vkDestroyDevice") :=
  ⟨by decide, by decide,
    (c9_resolver_pass_through (fun s => s.length) "vkDestroyDevice"
      (by decide) (by decide)).1⟩

/-! Supporting lemmas for the pending-update counter of the frame-target
manager. -/

/-- The throttled rebuild never changes the swapchain image count. -/
lemma rebuildStep_image_count (sp : ScreenParams) (i : Nat)
    (s1 : VulkanRenderer.State) :
    (VulkanRenderer.rebuildStep sp i s1).swapchain_image_count =
      s1.swapchain_image_count := by
  unfold VulkanRenderer.rebuildStep
  split <;> rfl

/-- The throttled rebuild leaves the counter or decrements it by one. -/
lemma rebuildStep_counter (sp : ScreenParams) (i : Nat)
    (s1 : VulkanRenderer.State) :
    (VulkanRenderer.rebuildStep sp i s1).frames_to_update_count ≤
        s1.frames_to_update_count ∧
      s1.frames_to_update_count ≤
        (VulkanRenderer.rebuildStep sp i s1).frames_to_update_count + 1 := by
  unfold VulkanRenderer.rebuildStep
  split
  · constructor
    · simp
    · simp only []
      omega
  · exact ⟨Nat.le_refl _, Nat.le_succ _⟩

/-- Per-frame pre-processing never changes the swapchain image count. -/
lemma preProcessing_image_count (sp : ScreenParams) (i : Nat)
    (s : VulkanRenderer.State) :
    (VulkanRenderer.RunRenderingPreProcessing sp i s).swapchain_image_count =
      s.swapchain_image_count := by
  unfold VulkanRenderer.RunRenderingPreProcessing
  rw [rebuildStep_image_count]
  split <;> rfl

/-- Upper bound for the counter after one pre-processing call: the image
count on a dimension change, the previous counter value otherwise. -/
lemma preProcessing_counter_le (sp : ScreenParams) (i : Nat)
    (s : VulkanRenderer.State) :
    (VulkanRenderer.RunRenderingPreProcessing sp i s).frames_to_update_count ≤
      if VulkanRenderer.dimensionChange sp s then s.swapchain_image_count
      else s.frames_to_update_count := by
  unfold VulkanRenderer.RunRenderingPreProcessing
  by_cases hd : VulkanRenderer.dimensionChange sp s
  · rw [if_pos hd, if_pos hd]
    exact (rebuildStep_counter sp i
      { s with frames_to_update_count := s.swapchain_image_count
               current_rendering_width := sp.viewport_width
               current_rendering_height := sp.viewport_height }).1
  · rw [if_neg hd, if_neg hd]
    exact (rebuildStep_counter sp i s).1

/-- Lower bound for the counter after one pre-processing call: each call
decrements by at most one. -/
lemma preProcessing_counter_ge (sp : ScreenParams) (i : Nat)
    (s : VulkanRenderer.State) :
    (if VulkanRenderer.dimensionChange sp s then s.swapchain_image_count
      else s.frames_to_update_count) ≤
      (VulkanRenderer.RunRenderingPreProcessing sp i s).frames_to_update_count
        + 1 := by
  unfold VulkanRenderer.RunRenderingPreProcessing
  by_cases hd : VulkanRenderer.dimensionChange sp s
  · rw [if_pos hd, if_pos hd]
    exact (rebuildStep_counter sp i
      { s with frames_to_update_count := s.swapchain_image_count
               current_rendering_width := sp.viewport_width
               current_rendering_height := sp.viewport_height }).2
  · rw [if_neg hd, if_neg hd]
    exact (rebuildStep_counter sp i s).2

/-- Boundedness of the counter is preserved by one pre-processing call. -/
lemma preProcessing_bounded (sp : ScreenParams) (i : Nat)
    (s : VulkanRenderer.State)
    (h : s.frames_to_update_count ≤ s.swapchain_image_count) :
    (VulkanRenderer.RunRenderingPreProcessing sp i s).frames_to_update_count ≤
      (VulkanRenderer.RunRenderingPreProcessing sp i s).swapchain_image_count := by
  have hle := preProcessing_counter_le sp i s
  rw [preProcessing_image_count]
  by_cases hd : VulkanRenderer.dimensionChange sp s
  · rw [if_pos hd] at hle
    exact hle
  · rw [if_neg hd] at hle
    exact le_trans hle h

/-- Boundedness of the counter is preserved by any sequence of pre-processing
calls, and the image count is unchanged. -/
lemma runList_bounded (calls : List (ScreenParams × Nat))
    (s : VulkanRenderer.State)
    (h : s.frames_to_update_count ≤ s.swapchain_image_count) :
    (VulkanRenderer.runPreProcessingList calls s).frames_to_update_count ≤
        s.swapchain_image_count ∧
      (VulkanRenderer.runPreProcessingList calls s).swapchain_image_count =
        s.swapchain_image_count := by
  induction calls generalizing s with
  | nil => exact ⟨h, rfl⟩
  | cons c rest ih =>
      have hb := preProcessing_bounded c.1 c.2 s h
      have hc := preProcessing_image_count c.1 c.2 s
      have hrec := ih (VulkanRenderer.RunRenderingPreProcessing c.1 c.2 s) hb
      rw [hc] at hrec
      simpa [VulkanRenderer.runPreProcessingList] using hrec

/-- C8: in any sequence of pre-processing calls that begins with a dimension
change (the counter is not set by the constructor, so a dimension change is
what first gives it a defined value), the pending-update counter never
exceeds the swapchain image count at any later point; moreover every single
call sets the counter to the image count when the viewport dimensions
changed and otherwise leaves it or decrements it by exactly one (the
decrement is guarded by a positivity test, so the counter never goes below
zero). -/
theorem c8_pending_counter_bounded (s : VulkanRenderer.State)
    (p : ScreenParams × Nat) (rest : List (ScreenParams × Nat))
    (hp : VulkanRenderer.dimensionChange p.1 s) :
    (∀ n : Nat,
      (VulkanRenderer.runPreProcessingList (rest.take n)
          (VulkanRenderer.RunRenderingPreProcessing p.1 p.2 s)).frames_to_update_count
        ≤ s.swapchain_image_count) ∧
    (∀ (t : VulkanRenderer.State) (q : ScreenParams × Nat),
      (VulkanRenderer.RunRenderingPreProcessing q.1 q.2 t).frames_to_update_count ≤
        if VulkanRenderer.dimensionChange q.1 t then t.swapchain_image_count
        else t.frames_to_update_count) ∧
    (∀ (t : VulkanRenderer.State) (q : ScreenParams × Nat),
      (if VulkanRenderer.dimensionChange q.1 t then t.swapchain_image_count
        else t.frames_to_update_count) ≤
        (VulkanRenderer.RunRenderingPreProcessing q.1 q.2 t).frames_to_update_count
          + 1) := by
  refine ⟨fun n => ?_, fun t q => preProcessing_counter_le q.1 q.2 t,
    fun t q => preProcessing_counter_ge q.1 q.2 t⟩
  have h1 : (VulkanRenderer.RunRenderingPreProcessing p.1 p.2 s).frames_to_update_count
      ≤ s.swapchain_image_count := by
    have := preProcessing_counter_le p.1 p.2 s
    simpa [hp] using this
  have h2 := preProcessing_image_count p.1 p.2 s
  have := runList_bounded (rest.take n)
    (VulkanRenderer.RunRenderingPreProcessing p.1 p.2 s) (by rw [h2]; exact h1)
  rw [h2] at this
  exact this.1

/-- C8 witness: the bound applied to a concrete three-image state whose
starting counter (99) models an arbitrary indeterminate value, a first call
that changes the viewport dimensions, and one further call. -/
theorem c8_witness :
    VulkanRenderer.dimensionChange smallScreen
      (⟨0, 0, 3, 99, [none, none, none]⟩ : VulkanRenderer.State) ∧
    (VulkanRenderer.runPreProcessingList
        ([((smallScreen : ScreenParams), (1 : Nat))].take 1)
        (VulkanRenderer.RunRenderingPreProcessing smallScreen 0
          ⟨0, 0, 3, 99, [none, none, none]⟩)).frames_to_update_count ≤ 3 :=
  ⟨by decide,
    (c8_pending_counter_bounded ⟨0, 0, 3, 99, [none, none, none]⟩
      (smallScreen, 0) [(smallScreen, 1)] (by decide)).1 1⟩

/-! Supporting lemmas for pipeline-rebuild accounting in the widgets
renderer. -/

namespace VulkanWidgetsRenderer

lemma PipelinePreserved.refl (a : State × World) : PipelinePreserved a a :=
  ⟨rfl, rfl, rfl, rfl⟩

lemma PipelinePreserved.trans {a b c : State × World}
    (h1 : PipelinePreserved a b) (h2 : PipelinePreserved b c) :
    PipelinePreserved a c :=
  ⟨h2.1.trans h1.1, h2.2.1.trans h1.2.1, h2.2.2.1.trans h1.2.2.1,
    h2.2.2.2.trans h1.2.2.2⟩

lemma freshHandles_ops (n : Nat) : ∀ w : World, (freshHandles n w).2.ops = w.ops := by
  induction n with
  | zero => intro w; rfl
  | succ n ih => intro w; simpa [freshHandles, World.fresh] using ih _

lemma freshHandles_cmds (n : Nat) : ∀ w : World, (freshHandles n w).2.cmds = w.cmds := by
  induction n with
  | zero => intro w; rfl
  | succ n ih => intro w; simpa [freshHandles, World.fresh] using ih _

lemma pp_createPerWidget (s : State) (w : World) :
    PipelinePreserved (s, w) (CreatePerWidgetVulkanObjects s w) := by
  refine ⟨?_, ?_, ?_, ?_⟩ <;>
    simp [CreatePerWidgetVulkanObjects, World.log, World.fresh,
      pipelineCreates, pipelineDestroys, List.countP_append,
      isCreatePipelineOp, isDestroyPipelineOp, freshHandles_ops]

lemma pp_createVertexBuffer (vertices : List Vertex) (i : Nat) (s : State)
    (w : World) : PipelinePreserved (s, w) (CreateVertexBuffer vertices i s w) := by
  unfold CreateVertexBuffer
  split
  · exact PipelinePreserved.refl _
  · refine ⟨?_, ?_, ?_, ?_⟩ <;>
      simp [CreateBuffer, World.log, World.fresh, pipelineCreates,
        pipelineDestroys, List.countP_append, isCreatePipelineOp,
        isDestroyPipelineOp]

lemma pp_log (s : State) (w : World) (o : DriverOp)
    (h1 : isCreatePipelineOp o = false) (h2 : isDestroyPipelineOp o = false) :
    PipelinePreserved (s, w) (s, w.log o) := by
  refine ⟨rfl, rfl, ?_, ?_⟩ <;>
    simp [World.log, pipelineCreates, pipelineDestroys, List.countP_append,
      h1, h2]

lemma pp_updateVertexBuffer (p : WidgetParams) (sp : ScreenParams) (i : Nat)
    (s : State) (w : World) :
    PipelinePreserved (s, w) (UpdateVertexBuffer p sp i s w) := by
  unfold UpdateVertexBuffer
  split
  · exact PipelinePreserved.trans
      (PipelinePreserved.trans
        (pp_log s w (.destroyBuffer (s.vertex_buffers.getD i 0)) rfl rfl)
        (pp_log s _ (.freeMemory (s.vertex_buffers_memory.getD i 0)) rfl rfl))
      (pp_createVertexBuffer _ i s _)
  · exact pp_createVertexBuffer _ i s w

lemma pp_updateAux (sp : ScreenParams) (ps : List WidgetParams) :
    ∀ (i : Nat) (s : State) (w : World),
      PipelinePreserved (s, w) (updateVertexBuffersAux sp ps i s w) := by
  induction ps with
  | nil => intro i s w; exact PipelinePreserved.refl _
  | cons p rest ih =>
      intro i s w
      unfold updateVertexBuffersAux
      exact PipelinePreserved.trans (pp_updateVertexBuffer p sp i s w)
        (ih (i + 1) _ _)

lemma pp_cleanTexture (i : Nat) (s : State) (w : World) :
    PipelinePreserved (s, w) (CleanTextureImageView i s w) := by
  unfold CleanTextureImageView
  split
  · refine ⟨rfl, rfl, ?_, ?_⟩ <;>
      simp [World.log, pipelineCreates, pipelineDestroys, List.countP_append,
        isCreatePipelineOp, isDestroyPipelineOp]
  · exact PipelinePreserved.refl _

lemma pp_renderWidget (p : WidgetParams) (i : Nat) (sp : ScreenParams)
    (s : State) (w : World) :
    PipelinePreserved (s, w) (RenderWidget p i sp s w) := by
  refine PipelinePreserved.trans (pp_cleanTexture i s w) ?_
  refine ⟨?_, ?_, ?_, ?_⟩ <;>
    simp [RenderWidget, World.log, World.record, World.fresh,
      pipelineCreates, pipelineDestroys, List.countP_append,
      isCreatePipelineOp, isDestroyPipelineOp]

lemma pp_renderLoop (sp : ScreenParams) (ps : List WidgetParams) :
    ∀ (i : Nat) (s : State) (w : World),
      PipelinePreserved (s, w) (renderWidgetLoop sp ps i s w) := by
  induction ps with
  | nil => intro i s w; exact PipelinePreserved.refl _
  | cons p rest ih =>
      intro i s w
      unfold renderWidgetLoop
      exact PipelinePreserved.trans (pp_renderWidget p i sp s w) (ih (i + 1) _ _)

lemma cgp_creates (s : State) (w : World) :
    pipelineCreates (CreateGraphicsPipeline s w).2.ops =
      pipelineCreates w.ops + 1 := by
  unfold CreateGraphicsPipeline CleanPipeline LoadShader
  split <;>
    simp [World.log, World.fresh, pipelineCreates, List.countP_append,
      isCreatePipelineOp]

lemma cgp_destroys (s : State) (w : World) :
    pipelineDestroys (CreateGraphicsPipeline s w).2.ops =
      pipelineDestroys w.ops + (if s.graphics_pipeline = 0 then 0 else 1) := by
  unfold CreateGraphicsPipeline CleanPipeline LoadShader
  split
  case isTrue h =>
    simp [World.log, World.fresh, pipelineDestroys, List.countP_append,
      isDestroyPipelineOp, h]
  case isFalse h =>
    have h0 : s.graphics_pipeline = 0 := by
      by_contra hc
      exact h hc
    simp [World.log, World.fresh, pipelineDestroys, List.countP_append,
      isDestroyPipelineOp, h0]

lemma cgp_current (s : State) (w : World) :
    (CreateGraphicsPipeline s w).1.current_render_pass =
      s.current_render_pass := by
  unfold CreateGraphicsPipeline CleanPipeline LoadShader
  split <;> rfl

lemma cgp_widget_count (s : State) (w : World) :
    (CreateGraphicsPipeline s w).1.widget_image_count =
      s.widget_image_count := by
  unfold CreateGraphicsPipeline CleanPipeline LoadShader
  split <;> rfl

lemma cgp_descriptor_sets (s : State) (w : World) :
    (CreateGraphicsPipeline s w).1.descriptor_sets = s.descriptor_sets := by
  unfold CreateGraphicsPipeline CleanPipeline LoadShader
  split <;> rfl

lemma cgp_image_views (s : State) (w : World) :
    (CreateGraphicsPipeline s w).1.image_views = s.image_views := by
  unfold CreateGraphicsPipeline CleanPipeline LoadShader
  split <;> rfl

lemma cgp_vertex_buffers (s : State) (w : World) :
    (CreateGraphicsPipeline s w).1.vertex_buffers = s.vertex_buffers := by
  unfold CreateGraphicsPipeline CleanPipeline LoadShader
  split <;> rfl

lemma cgp_vertex_buffers_memory (s : State) (w : World) :
    (CreateGraphicsPipeline s w).1.vertex_buffers_memory =
      s.vertex_buffers_memory := by
  unfold CreateGraphicsPipeline CleanPipeline LoadShader
  split <;> rfl

lemma cgp_cmds (s : State) (w : World) :
    (CreateGraphicsPipeline s w).2.cmds = w.cmds := by
  unfold CreateGraphicsPipeline CleanPipeline LoadShader
  split <;> rfl

lemma cgp_poolCreates (m : Nat) (s : State) (w : World) :
    poolCreatesWithMax m (CreateGraphicsPipeline s w).2.ops =
      poolCreatesWithMax m w.ops := by
  unfold CreateGraphicsPipeline CleanPipeline LoadShader
  split <;> simp [World.log, World.fresh, poolCreatesWithMax,
    List.countP_append]

lemma pp_updateVBs (ws : List WidgetParams) (sp : ScreenParams) (s : State)
    (w : World) : PipelinePreserved (s, w) (UpdateVertexBuffers ws sp s w) :=
  pp_updateAux sp ws 0 s w

lemma renderWidgets_def (sp : ScreenParams) (ws : List WidgetParams)
    (rp : Handle) (s : State) (w : World) :
    RenderWidgets sp ws rp s w =
      renderWidgetLoop sp ws 0
        (if rp ≠ (UpdateVertexBuffers ws sp
            (CreatePerWidgetVulkanObjects
              { s with widget_image_count := ws.length } w).1
            (CreatePerWidgetVulkanObjects
              { s with widget_image_count := ws.length } w).2).1.current_render_pass
         then CreateGraphicsPipeline
            { (UpdateVertexBuffers ws sp
                (CreatePerWidgetVulkanObjects
                  { s with widget_image_count := ws.length } w).1
                (CreatePerWidgetVulkanObjects
                  { s with widget_image_count := ws.length } w).2).1
              with current_render_pass := rp }
            (UpdateVertexBuffers ws sp
              (CreatePerWidgetVulkanObjects
                { s with widget_image_count := ws.length } w).1
              (CreatePerWidgetVulkanObjects
                { s with widget_image_count := ws.length } w).2).2
         else UpdateVertexBuffers ws sp
            (CreatePerWidgetVulkanObjects
              { s with widget_image_count := ws.length } w).1
            (CreatePerWidgetVulkanObjects
              { s with widget_image_count := ws.length } w).2).1
        (if rp ≠ (UpdateVertexBuffers ws sp
            (CreatePerWidgetVulkanObjects
              { s with widget_image_count := ws.length } w).1
            (CreatePerWidgetVulkanObjects
              { s with widget_image_count := ws.length } w).2).1.current_render_pass
         then CreateGraphicsPipeline
            { (UpdateVertexBuffers ws sp
                (CreatePerWidgetVulkanObjects
                  { s with widget_image_count := ws.length } w).1
                (CreatePerWidgetVulkanObjects
                  { s with widget_image_count := ws.length } w).2).1
              with current_render_pass := rp }
            (UpdateVertexBuffers ws sp
              (CreatePerWidgetVulkanObjects
                { s with widget_image_count := ws.length } w).1
              (CreatePerWidgetVulkanObjects
                { s with widget_image_count := ws.length } w).2).2
         else UpdateVertexBuffers ws sp
            (CreatePerWidgetVulkanObjects
              { s with widget_image_count := ws.length } w).1
            (CreatePerWidgetVulkanObjects
              { s with widget_image_count := ws.length } w).2).2 := rfl

/-- C5 (amended): per `RenderWidgets` call, the pipeline is rebuilt exactly
when the render-pass handle differs from the one the current pipeline was
built against: such a call performs exactly one pipeline creation (plus one
destruction when a pipeline existed), while a call whose render pass equals
the cached one performs zero rebuild work — no create, no destroy, pipeline
handle unchanged.  Afterwards the cached render pass is the one just
passed. -/
theorem c5_pipeline_rebuild_per_call (screen_params : ScreenParams)
    (widgets_params : List WidgetParams) (render_pass : Handle)
    (s : State) (w : World) :
    pipelineCreates (RenderWidgets screen_params widgets_params render_pass s w).2.ops
        = pipelineCreates w.ops +
          (if render_pass = s.current_render_pass then 0 else 1) ∧
    pipelineDestroys (RenderWidgets screen_params widgets_params render_pass s w).2.ops
        = pipelineDestroys w.ops +
          (if render_pass = s.current_render_pass then 0
           else if s.graphics_pipeline = 0 then 0 else 1) ∧
    (RenderWidgets screen_params widgets_params render_pass s w).1.current_render_pass
        = render_pass ∧
    (if render_pass = s.current_render_pass then
        (RenderWidgets screen_params widgets_params render_pass s w).1.graphics_pipeline
          = s.graphics_pipeline
      else True) := by
  have hAB : PipelinePreserved
      ({ s with widget_image_count := widgets_params.length }, w)
      (UpdateVertexBuffers widgets_params screen_params
        (CreatePerWidgetVulkanObjects
          { s with widget_image_count := widgets_params.length } w).1
        (CreatePerWidgetVulkanObjects
          { s with widget_image_count := widgets_params.length } w).2) :=
    PipelinePreserved.trans
      (pp_createPerWidget { s with widget_image_count := widgets_params.length } w)
      (pp_updateVBs widgets_params screen_params _ _)
  by_cases h : render_pass = s.current_render_pass
  · have hcond : ¬ (render_pass ≠ (UpdateVertexBuffers widgets_params screen_params
        (CreatePerWidgetVulkanObjects
          { s with widget_image_count := widgets_params.length } w).1
        (CreatePerWidgetVulkanObjects
          { s with widget_image_count := widgets_params.length } w).2).1.current_render_pass) := by
      rw [hAB.2.1]
      simpa using h
    have hfin : PipelinePreserved
        ({ s with widget_image_count := widgets_params.length }, w)
        (RenderWidgets screen_params widgets_params render_pass s w) := by
      rw [renderWidgets_def, if_neg hcond]
      exact PipelinePreserved.trans hAB
        (pp_renderLoop screen_params widgets_params 0 _ _)
    refine ⟨?_, ?_, ?_, ?_⟩
    · rw [hfin.2.2.1]
      simp [h]
    · rw [hfin.2.2.2]
      simp [h]
    · rw [hfin.2.1, h]
    · rw [if_pos h]
      exact hfin.1
  · have hcond : render_pass ≠ (UpdateVertexBuffers widgets_params screen_params
        (CreatePerWidgetVulkanObjects
          { s with widget_image_count := widgets_params.length } w).1
        (CreatePerWidgetVulkanObjects
          { s with widget_image_count := widgets_params.length } w).2).1.current_render_pass := by
      rw [hAB.2.1]
      simpa using h
    rw [renderWidgets_def, if_pos hcond]
    refine ⟨?_, ?_, ?_, ?_⟩
    · rw [(pp_renderLoop screen_params widgets_params 0 _ _).2.2.1, cgp_creates,
        hAB.2.2.1]
      simp [h]
    · rw [(pp_renderLoop screen_params widgets_params 0 _ _).2.2.2, cgp_destroys]
      simp only [hAB.2.2.2]
      simp [h, hAB.1]
    · rw [(pp_renderLoop screen_params widgets_params 0 _ _).2.1, cgp_current]
    · rw [if_neg h]
      trivial

/-- C10: a `RenderWidgets` call with an empty widget list leaves every
per-widget collection empty (descriptor sets, image views, vertex buffers and
their memory), records no command at all into the command buffer (in
particular zero draws), still allocates a descriptor pool whose capacity is
zero sets, and still performs the render-pass/pipeline mismatch check: the
cached render pass ends up equal to the passed handle and a pipeline rebuild
happens exactly when the handle differed from the cached one. -/
theorem c10_empty_widget_list (screen_params : ScreenParams)
    (render_pass : Handle) (s : State) (w : World) :
    (RenderWidgets screen_params [] render_pass s w).1.widget_image_count = 0 ∧
    (RenderWidgets screen_params [] render_pass s w).1.descriptor_sets = [] ∧
    (RenderWidgets screen_params [] render_pass s w).1.image_views = [] ∧
    (RenderWidgets screen_params [] render_pass s w).1.vertex_buffers = [] ∧
    (RenderWidgets screen_params [] render_pass s w).1.vertex_buffers_memory = [] ∧
    (RenderWidgets screen_params [] render_pass s w).2.cmds = w.cmds ∧
    poolCreatesWithMax 0 (RenderWidgets screen_params [] render_pass s w).2.ops
        = poolCreatesWithMax 0 w.ops + 1 ∧
    (RenderWidgets screen_params [] render_pass s w).1.current_render_pass
        = render_pass ∧
    pipelineCreates (RenderWidgets screen_params [] render_pass s w).2.ops
        = pipelineCreates w.ops +
          (if render_pass = s.current_render_pass then 0 else 1) := by
  by_cases h : render_pass = s.current_render_pass
  · have hcond : ¬ (render_pass ≠ (UpdateVertexBuffers [] screen_params
        (CreatePerWidgetVulkanObjects
          { s with widget_image_count := ([] : List WidgetParams).length } w).1
        (CreatePerWidgetVulkanObjects
          { s with widget_image_count := ([] : List WidgetParams).length } w).2).1.current_render_pass) := by
      simp only [ne_eq, not_not]
      rw [h]
      rfl
    rw [renderWidgets_def, if_neg hcond]
    refine ⟨?_, ?_, ?_, ?_, ?_, ?_, ?_, ?_, ?_⟩ <;>
      simp [renderWidgetLoop, UpdateVertexBuffers, updateVertexBuffersAux,
        CreatePerWidgetVulkanObjects, freshHandles, resizeHandles, World.log,
        World.fresh, poolCreatesWithMax, pipelineCreates, List.countP_append,
        isCreatePipelineOp, h]
  · have hcond : render_pass ≠ (UpdateVertexBuffers [] screen_params
        (CreatePerWidgetVulkanObjects
          { s with widget_image_count := ([] : List WidgetParams).length } w).1
        (CreatePerWidgetVulkanObjects
          { s with widget_image_count := ([] : List WidgetParams).length } w).2).1.current_render_pass := by
      intro hc
      exact h (hc.trans rfl)
    rw [renderWidgets_def, if_pos hcond]
    simp only [renderWidgetLoop]
    refine ⟨?_, ?_, ?_, ?_, ?_, ?_, ?_, ?_, ?_⟩
    · rw [cgp_widget_count]
      simp [UpdateVertexBuffers, updateVertexBuffersAux,
        CreatePerWidgetVulkanObjects, freshHandles]
    · rw [cgp_descriptor_sets]
      simp [UpdateVertexBuffers, updateVertexBuffersAux,
        CreatePerWidgetVulkanObjects, freshHandles]
    · rw [cgp_image_views]
      simp [UpdateVertexBuffers, updateVertexBuffersAux,
        CreatePerWidgetVulkanObjects, freshHandles, resizeHandles]
    · rw [cgp_vertex_buffers]
      simp [UpdateVertexBuffers, updateVertexBuffersAux,
        CreatePerWidgetVulkanObjects, freshHandles, resizeHandles]
    · rw [cgp_vertex_buffers_memory]
      simp [UpdateVertexBuffers, updateVertexBuffersAux,
        CreatePerWidgetVulkanObjects, freshHandles, resizeHandles]
    · rw [cgp_cmds]
      simp [UpdateVertexBuffers, updateVertexBuffersAux,
        CreatePerWidgetVulkanObjects, freshHandles, World.log, World.fresh]
    · rw [cgp_poolCreates]
      simp [UpdateVertexBuffers, updateVertexBuffersAux,
        CreatePerWidgetVulkanObjects, freshHandles, World.log, World.fresh,
        poolCreatesWithMax, List.countP_append]
    · rw [cgp_current]
    · rw [cgp_creates]
      simp [UpdateVertexBuffers, updateVertexBuffersAux,
        CreatePerWidgetVulkanObjects, freshHandles, World.log, World.fresh,
        pipelineCreates, List.countP_append, isCreatePipelineOp, h]

end VulkanWidgetsRenderer

/-! Supporting lemmas for the throttled framebuffer rebuild. -/

lemma listGetD_set_self {α : Type} (l : List α) (i : Nat) (a d : α)
    (h : i < l.length) : (l.set i a).getD i d = a := by
  induction l generalizing i with
  | nil => simp at h
  | cons x xs ih =>
      cases i with
      | zero => rfl
      | succ n =>
          simp only [List.set, List.getD_cons_succ]
          exact ih n (by simpa using h)

lemma listGetD_set_ne {α : Type} (l : List α) (i j : Nat) (a d : α)
    (h : i ≠ j) : (l.set i a).getD j d = l.getD j d := by
  induction l generalizing i j with
  | nil => rfl
  | cons x xs ih =>
      cases i with
      | zero =>
          cases j with
          | zero => exact absurd rfl h
          | succ m => rfl
      | succ n =>
          cases j with
          | zero => rfl
          | succ m =>
              simp only [List.set, List.getD_cons_succ]
              exact ih n m (fun hh => h (by rw [hh]))

/-- While the cached dimensions already match the incoming screen parameters,
a run of per-frame calls rebuilds (at the new size) the framebuffer of every
index acquired while the pending counter is still positive — i.e. of the
first `frames_to_update_count` acquired indices — and never invalidates a
framebuffer that already has the new size. -/
lemma c4Core (pv : ScreenParams) (idxs : List Nat) :
    ∀ s : VulkanRenderer.State,
      s.current_rendering_width = pv.viewport_width →
      s.current_rendering_height = pv.viewport_height →
      (∀ i ∈ idxs, i < s.frame_buffers.length) →
      ((∀ j ∈ idxs.take s.frames_to_update_count,
          (VulkanRenderer.runPreProcessingList (idxs.map fun i => (pv, i))
            s).frame_buffers.getD j none = some (pv.width, pv.height)) ∧
        (∀ j : Nat,
          s.frame_buffers.getD j none = some (pv.width, pv.height) →
          (VulkanRenderer.runPreProcessingList (idxs.map fun i => (pv, i))
            s).frame_buffers.getD j none = some (pv.width, pv.height))) := by
  induction idxs with
  | nil =>
      intro s _ _ _
      exact ⟨by simp, fun j hj => hj⟩
  | cons i rest ih =>
      intro s hw hh hbound
      have hnd : ¬ VulkanRenderer.dimensionChange pv s := by
        simp [VulkanRenderer.dimensionChange, hw, hh]
      have hfold : VulkanRenderer.runPreProcessingList
          ((i :: rest).map fun k => (pv, k)) s =
          VulkanRenderer.runPreProcessingList (rest.map fun k => (pv, k))
            (VulkanRenderer.RunRenderingPreProcessing pv i s) := by
        simp [VulkanRenderer.runPreProcessingList]
      by_cases h0 : 0 < s.frames_to_update_count
      · have hstep : VulkanRenderer.RunRenderingPreProcessing pv i s =
            { s with
                frame_buffers := s.frame_buffers.set i
                  (some (pv.width, pv.height))
                frames_to_update_count := s.frames_to_update_count - 1 } := by
          unfold VulkanRenderer.RunRenderingPreProcessing
            VulkanRenderer.rebuildStep
          rw [if_neg hnd, if_pos h0]
        have hlen : (s.frame_buffers.set i
            (some (pv.width, pv.height))).length = s.frame_buffers.length :=
          List.length_set s.frame_buffers i _
        have hrec := ih
          { s with
              frame_buffers := s.frame_buffers.set i
                (some (pv.width, pv.height))
              frames_to_update_count := s.frames_to_update_count - 1 }
          hw hh
          (by
            intro k hk
            rw [hlen]
            exact hbound k (List.mem_cons_of_mem i hk))
        constructor
        · intro j hj
          rw [hfold, hstep]
          obtain ⟨c, hc⟩ := Nat.exists_eq_succ_of_ne_zero
            (Nat.pos_iff_ne_zero.mp h0)
          rw [hc, List.take_succ_cons] at hj
          rcases List.mem_cons.mp hj with hji | hjr
          · subst hji
            refine hrec.2 j ?_
            exact listGetD_set_self s.frame_buffers j _ none
              (hbound j (List.mem_cons_self j rest))
          · refine hrec.1 j ?_
            have : s.frames_to_update_count - 1 = c := by omega
            rw [this]
            exact hjr
        · intro j hj
          rw [hfold, hstep]
          refine hrec.2 j ?_
          by_cases hij : i = j
          · subst hij
            exact listGetD_set_self s.frame_buffers i _ none
              (hbound i (List.mem_cons_self i rest))
          · rw [listGetD_set_ne s.frame_buffers i j _ none hij]
            exact hj
      · have hstep : VulkanRenderer.RunRenderingPreProcessing pv i s = s := by
          unfold VulkanRenderer.RunRenderingPreProcessing
            VulkanRenderer.rebuildStep
          rw [if_neg hnd, if_neg h0]
        have hrec := ih s hw hh
          (fun k hk => hbound k (List.mem_cons_of_mem i hk))
        constructor
        · intro j hj
          have hz : s.frames_to_update_count = 0 := by omega
          rw [hz] at hj
          simp at hj
        · intro j hj
          rw [hfold, hstep]
          exact hrec.2 j hj

/-- C4 (amended): after a dimension change, the framebuffers reach the new
size once every image index has been acquired among the first `image_count`
calls starting at the change — true in particular for round-robin
acquisition.  (The unamended claim, for arbitrary repeated indices, fails:
see the counterexample.)  Starting from a state about to receive a dimension
change, run one call per entry of `idxs` (all with the new screen
parameters); if the index list covers every image index within its first
`image_count` entries, every image's framebuffer ends at the latest requested
width/height. -/
theorem c4_rebuild_covers_all_images (s : VulkanRenderer.State)
    (pv : ScreenParams) (idxs : List Nat)
    (hchange : VulkanRenderer.dimensionChange pv s)
    (hfb : s.frame_buffers.length = s.swapchain_image_count)
    (hbound : ∀ i ∈ idxs, i < s.swapchain_image_count)
    (hcover : ∀ j, j < s.swapchain_image_count →
      j ∈ idxs.take s.swapchain_image_count) :
    ∀ j, j < s.swapchain_image_count →
      (VulkanRenderer.runPreProcessingList (idxs.map fun i => (pv, i))
        s).frame_buffers.getD j none = some (pv.width, pv.height) := by
  intro j hj
  have hcount : 0 < s.swapchain_image_count :=
    Nat.lt_of_le_of_lt (Nat.zero_le j) hj
  have hcov := hcover j hj
  cases idxs with
  | nil =>
      simp at hcov
  | cons i rest =>
      have hfold : VulkanRenderer.runPreProcessingList
          ((i :: rest).map fun k => (pv, k)) s =
          VulkanRenderer.runPreProcessingList (rest.map fun k => (pv, k))
            (VulkanRenderer.RunRenderingPreProcessing pv i s) := by
        simp [VulkanRenderer.runPreProcessingList]
      have hstep : VulkanRenderer.RunRenderingPreProcessing pv i s =
          { current_rendering_width := pv.viewport_width
            current_rendering_height := pv.viewport_height
            swapchain_image_count := s.swapchain_image_count
            frames_to_update_count := s.swapchain_image_count - 1
            frame_buffers := s.frame_buffers.set i
              (some (pv.width, pv.height)) } := by
        unfold VulkanRenderer.RunRenderingPreProcessing
          VulkanRenderer.rebuildStep
        rw [if_pos hchange, if_pos (show 0 < s.swapchain_image_count from hcount)]
      have hlen : (s.frame_buffers.set i
          (some (pv.width, pv.height))).length = s.frame_buffers.length :=
        List.length_set s.frame_buffers i _
      have hrec := c4Core pv rest
        { current_rendering_width := pv.viewport_width
          current_rendering_height := pv.viewport_height
          swapchain_image_count := s.swapchain_image_count
          frames_to_update_count := s.swapchain_image_count - 1
          frame_buffers := s.frame_buffers.set i
            (some (pv.width, pv.height)) }
        rfl rfl
        (by
          intro k hk
          show k < (s.frame_buffers.set i (some (pv.width, pv.height))).length
          rw [hlen, hfb]
          exact hbound k (List.mem_cons_of_mem i hk))
      rw [hfold, hstep]
      obtain ⟨c, hc⟩ := Nat.exists_eq_succ_of_ne_zero
        (Nat.pos_iff_ne_zero.mp hcount)
      rw [hc, List.take_succ_cons] at hcov
      rcases List.mem_cons.mp hcov with hji | hjr
      · subst hji
        refine hrec.2 j ?_
        exact listGetD_set_self s.frame_buffers j _ none
          (by rw [hfb]; exact hj)
      · refine hrec.1 j ?_
        show j ∈ rest.take (s.swapchain_image_count - 1)
        have : s.swapchain_image_count - 1 = c := by omega
        rw [this]
        exact hjr

/-- C4 witness: the amended rebuild theorem applied to a two-image swapchain,
a 10×10 dimension change, and the round-robin index sequence 0, 1. -/
theorem c4_witness :
    VulkanRenderer.dimensionChange smallScreen twoImageStart ∧
    twoImageStart.frame_buffers.length = twoImageStart.swapchain_image_count ∧
    (∀ i ∈ [0, 1], i < twoImageStart.swapchain_image_count) ∧
    (∀ j, j < twoImageStart.swapchain_image_count →
      j ∈ ([0, 1].take twoImageStart.swapchain_image_count)) ∧
    (VulkanRenderer.runPreProcessingList ([0, 1].map fun i => (smallScreen, i))
      twoImageStart).frame_buffers.getD 1 none =
      some (smallScreen.width, smallScreen.height) :=
  ⟨by decide, by decide, by decide, by decide,
    c4_rebuild_covers_all_images twoImageStart smallScreen [0, 1] (by decide)
      (by decide) (by decide) (by decide) 1 (by decide)⟩

end Cardboard
